import Mathlib

/-!
Shallow embedding of `SDLC_Principles.py` (Step-2 refactored functions):
the numeric summary utilities `generate_numbers`, `calculate_average`,
`find_max`, and the tabular summary utilities `load_data`,
`calculate_column_mean`, `find_column_max`, `filter_by_category`.

Python `ValueError`s become `Except Err` results; each `Err` constructor
corresponds to one distinct message string in the source (`Err.render`
gives the exact text).  Machine floats are modelled as exact rationals;
all the values involved in the claims are small integers, where the two
agree.
-/

set_option autoImplicit false

namespace SDLC

/-- The distinct `ValueError`s the source (and the libraries it calls) can
raise.  `loadFailed url inner` is the wrapping error built by `load_data`'s
`except` clause from the url and `str(e)` of the caught exception. -/
inductive Err where
  | emptyList
  | emptyRange
  | columnNotFound (column : String)
  | columnNoData (column : String)
  | loadedEmpty
  | loadFailed (url : String) (inner : String)
  | convertFailed
  | argmaxEmpty
  | mixedTypes
deriving DecidableEq

/-- The exact message string each error carries in the source. -/
def Err.render : Err → String
  | .emptyList => "List of numbers cannot be empty"
  | .emptyRange => "empty range for randrange()"
  | .columnNotFound c => "Column \x27" ++ c ++ "\x27 not found in DataFrame"
  | .columnNoData c => "Column \x27" ++ c ++ "\x27 contains no data"
  | .loadedEmpty => "Loaded data is empty"
  | .loadFailed url inner => "Failed to load data from " ++ url ++ ": " ++ inner
  | .convertFailed => "could not convert string to float"
  | .argmaxEmpty => "attempt to get argmax of an empty sequence"
  | .mixedTypes => "mixed type comparison"

/-! ## Numeric summary utilities -/

/-- Modelled from the contract of Python `random.randint(a, b)`: when
`a ≤ b` it returns some integer in the inclusive range `[a, b]` (here
`a + g i % (b - a + 1)` for an arbitrary entropy stream `g`, which ranges
over exactly the integers of `[a, b]` as `g i` ranges over `Nat`); when
`a > b` it raises `ValueError` ("empty range for randrange()"). -/
def randint (g : Nat → Nat) (lower upper : Int) (i : Nat) : Except Err Int :=
  if lower ≤ upper then .ok (lower + (g i : Int) % (upper - lower + 1))
  else .error .emptyRange

/-- The list comprehension `[random.randint(lower, upper) for _ in is]`:
elements are produced left to right and the first exception propagates. -/
def genList (g : Nat → Nat) (lower upper : Int) : List Nat → Except Err (List Int)
  | [] => .ok []
  | i :: is =>
    match randint g lower upper i with
    | .error e => .error e
    | .ok v =>
      match genList g lower upper is with
      | .error e => .error e
      | .ok rest => .ok (v :: rest)

/-- `generate_numbers(count, lower=1, upper=100)`:
`[random.randint(lower, upper) for _ in range(count)]`.  Python's
`range(count)` is empty for `count ≤ 0`, hence `count.toNat`. -/
def generate_numbers (g : Nat → Nat) (count lower upper : Int) :
    Except Err (List Int) :=
  genList g lower upper (List.range count.toNat)

/-- `calculate_average(numbers)`: raises on an empty list, otherwise
`sum(numbers) / len(numbers)` (Python true division, modelled in `ℚ`). -/
def calculate_average (numbers : List Int) : Except Err ℚ :=
  if numbers.isEmpty then .error .emptyList
  else .ok ((numbers.sum : ℚ) / (numbers.length : ℚ))

/-- `find_max(numbers)`: raises on an empty list, otherwise the builtin
`max(numbers)`, i.e. a left fold of binary max over the list. -/
def find_max (numbers : List Int) : Except Err Int :=
  match numbers with
  | [] => .error .emptyList
  | x :: xs => .ok (xs.foldl max x)

/-! ## Tabular summary utilities -/

/-- A cell of a data frame: numeric or categorical (string). -/
inductive Value where
  | num (q : ℚ)
  | str (s : String)
deriving DecidableEq

/-- An in-memory table: named columns and an ordered list of rows, each row
listing its cells in column order (pandas frames are rectangular, so each
row has one cell per column). -/
structure DataFrame where
  columns : List String
  rows : List (List Value)
deriving DecidableEq

/-- Position of a column name in the header. -/
def DataFrame.colIdx (df : DataFrame) (c : String) : Nat :=
  df.columns.findIdx (· == c)

/-- The cell of row `r` at column position `i`. -/
def cellAt (r : List Value) (i : Nat) : Value :=
  r.getD i (Value.str "")

/-- `df[c]`: the series of the column named `c`, one value per row. -/
def DataFrame.col (df : DataFrame) (c : String) : List Value :=
  df.rows.map (fun r => cellAt r (df.colIdx c))

/-- `df.empty` in pandas: true iff any axis has length zero. -/
def DataFrame.isVacant (df : DataFrame) : Bool :=
  df.rows.isEmpty || df.columns.isEmpty

/-- `df.head(n)` / `df.iloc[:n]`: for `n ≥ 0` the first `n` rows; modelled
from the pandas contract for negative `n`, where `head` returns all rows
except the last `|n|`. -/
def pandasHead {α : Type} (n : Int) (l : List α) : List α :=
  if 0 ≤ n then l.take n.toNat
  else l.take (l.length - (-n).toNat)

/-- Numeric view of a cell, `none` on a categorical cell. -/
def toNum : Value → Option ℚ
  | .num q => some q
  | .str _ => none

/-- Categorical view of a cell, `none` on a numeric cell. -/
def toStr : Value → Option String
  | .str s => some s
  | .num _ => none

/-- `series.mean()`: the arithmetic mean of an all-numeric series; raises
on a series containing strings. -/
def seriesMean (vs : List Value) : Except Err ℚ :=
  match vs.mapM toNum with
  | some qs => .ok (qs.sum / (qs.length : ℚ))
  | none => .error .convertFailed

/-- `series.max()`: the maximum of an all-numeric series (fold of binary
max), the lexicographic maximum of an all-string series, an error on an
empty or mixed series. -/
def seriesMax (vs : List Value) : Except Err Value :=
  match vs.mapM toNum with
  | some [] => .error .argmaxEmpty
  | some (q :: qs) => .ok (.num (qs.foldl max q))
  | none =>
    match vs.mapM toStr with
    | some [] => .error .argmaxEmpty
    | some (s :: ss) => .ok (.str (ss.foldl max s))
    | none => .error .mixedTypes

/-- The body of `load_data`'s `try` block: the outcome of
`pd.read_csv(url)` is the parameter `fetched` (the external fetch/parse
collaborator), and a `ValueError("Loaded data is empty")` is raised when
the frame is empty.  Both this raise and any fetch/parse error flow to the
`except` clause in `load_data`. -/
def loadTryBody (fetched : Except Err DataFrame) : Except Err DataFrame :=
  match fetched with
  | .error e => .error e
  | .ok df => if df.isVacant then .error .loadedEmpty else .ok df

/-- `load_data(url)`: runs the `try` body; any exception raised inside it —
including the deliberate empty-data raise — is caught by
`except Exception as e` and re-raised as
`ValueError(f"Failed to load data from {url}: {str(e)}")`. -/
def load_data (url : String) (fetched : Except Err DataFrame) :
    Except Err DataFrame :=
  match loadTryBody fetched with
  | .ok df => .ok df
  | .error e => .error (.loadFailed url e.render)

/-- `calculate_column_mean(df, column)`: column-existence check, then the
emptiness check `df[column].empty`, then `df[column].mean()`. -/
def calculate_column_mean (df : DataFrame) (column : String) : Except Err ℚ :=
  if column ∈ df.columns then
    if (df.col column).isEmpty then .error (.columnNoData column)
    else seriesMean (df.col column)
  else .error (.columnNotFound column)

/-- `find_column_max(df, column)`: same checks, then `df[column].max()`. -/
def find_column_max (df : DataFrame) (column : String) : Except Err Value :=
  if column ∈ df.columns then
    if (df.col column).isEmpty then .error (.columnNoData column)
    else seriesMax (df.col column)
  else .error (.columnNotFound column)

/-- `filter_by_category(df, column, value, limit=10)`: column-existence
check, then `df[df[column] == value].head(limit)` — the rows whose cell in
`column` equals the string `value` (a numeric cell never equals a string,
as in pandas), in original order, cut by `head`. -/
def filter_by_category (df : DataFrame) (column value : String)
    (limit : Int) : Except Err DataFrame :=
  if column ∈ df.columns then
    .ok ⟨df.columns,
      pandasHead limit
        (df.rows.filter
          (fun r => decide (cellAt r (df.colIdx column) = Value.str value)))⟩
  else .error (.columnNotFound column)

/-! ## Concrete frames used in witnesses and counterexamples -/

/-- A one-column frame with one `setosa` row and one `versicolor` row. -/
def irisTwo : DataFrame :=
  ⟨["species"], [[Value.str "setosa"], [Value.str "versicolor"]]⟩

/-- A one-column frame with two `setosa` rows. -/
def setosaTwo : DataFrame :=
  ⟨["species"], [[Value.str "setosa"], [Value.str "setosa"]]⟩

/-- A one-column frame with a single `setosa` row. -/
def setosaOne : DataFrame :=
  ⟨["species"], [[Value.str "setosa"]]⟩

/-- A well-formed frame with a header but zero rows. -/
def emptyFrame : DataFrame :=
  ⟨["sepal_length"], []⟩

/-- Decidable equality of results, so that concrete runs can be checked by
`decide`. -/
instance exceptDecEq {ε α : Type} [DecidableEq ε] [DecidableEq α] :
    DecidableEq (Except ε α)
  | .ok a, .ok b =>
    if h : a = b then .isTrue (by rw [h])
    else .isFalse (fun hh => h (Except.ok.inj hh))
  | .error e, .error f =>
    if h : e = f then .isTrue (by rw [h])
    else .isFalse (fun hh => h (Except.error.inj hh))
  | .ok _, .error _ => .isFalse (fun hh => Except.noConfusion hh)
  | .error _, .ok _ => .isFalse (fun hh => Except.noConfusion hh)

/-! ## Helper lemmas -/

theorem pandasHead_sublist {α : Type} (n : Int) (l : List α) :
    (pandasHead n l).Sublist l := by
  unfold pandasHead
  split <;> exact List.take_sublist _ _

theorem pandasHead_nil {α : Type} (n : Int) : pandasHead n ([] : List α) = [] := by
  unfold pandasHead
  split <;> simp

theorem foldl_max_init_le (xs : List Int) (a : Int) : a ≤ xs.foldl max a := by
  induction xs generalizing a with
  | nil => exact le_refl a
  | cons y ys ih => exact le_trans (le_max_left a y) (ih (max a y))

theorem foldl_max_le_of_mem (xs : List Int) (a x : Int) (hx : x ∈ xs) :
    x ≤ xs.foldl max a := by
  induction xs generalizing a with
  | nil => cases hx
  | cons y ys ih =>
    rcases List.mem_cons.mp hx with h | h
    · subst h
      exact le_trans (le_max_right a x) (foldl_max_init_le ys (max a x))
    · exact ih (max a y) h

theorem foldl_max_mem (xs : List Int) (a : Int) :
    xs.foldl max a = a ∨ xs.foldl max a ∈ xs := by
  induction xs generalizing a with
  | nil => exact Or.inl rfl
  | cons y ys ih =>
    have hred : (y :: ys).foldl max a = ys.foldl max (max a y) := rfl
    rcases ih (max a y) with h | h
    · rcases max_choice a y with hm | hm
      · exact Or.inl (by rw [hred, h, hm])
      · exact Or.inr (by rw [hred, h, hm]; exact List.mem_cons_self y ys)
    · exact Or.inr (by rw [hred]; exact List.mem_cons_of_mem y h)

theorem genList_ok (g : Nat → Nat) (lower upper : Int) (h : lower ≤ upper)
    (is : List Nat) :
    ∃ l, genList g lower upper is = .ok l ∧ l.length = is.length ∧
      ∀ x ∈ l, lower ≤ x ∧ x ≤ upper := by
  induction is with
  | nil => exact ⟨[], rfl, rfl, by simp⟩
  | cons i is ih =>
    obtain ⟨l, hl, hlen, hb⟩ := ih
    have hm : (0 : Int) < upper - lower + 1 := by omega
    have h0 : 0 ≤ (g i : Int) % (upper - lower + 1) :=
      Int.emod_nonneg _ (by omega)
    have h1 : (g i : Int) % (upper - lower + 1) < upper - lower + 1 :=
      Int.emod_lt_of_pos _ hm
    refine ⟨(lower + (g i : Int) % (upper - lower + 1)) :: l, ?_, ?_, ?_⟩
    · simp [genList, randint, if_pos h, hl]
    · simp [hlen]
    · intro x hx
      rcases List.mem_cons.mp hx with hx | hx
      · subst hx
        exact ⟨by omega, by omega⟩
      · exact hb x hx

theorem seriesMean_no_columnNoData (vs : List Value) (c : String) :
    seriesMean vs ≠ .error (.columnNoData c) := by
  unfold seriesMean
  split <;> simp

theorem seriesMax_no_columnNoData (vs : List Value) (c : String) :
    seriesMax vs ≠ .error (.columnNoData c) := by
  unfold seriesMax
  split
  · simp
  · simp
  · split <;> simp

/-! ## Claims -/

/-- C3 (amended with the hypothesis `lower ≤ upper`, which the
counterexample `generate_numbers_inverted_range_cex` forces): for all
`count ≥ 0` and all `lower ≤ upper`, `generate_numbers(count, lower,
upper)` returns a sequence of exactly `count` integers, each in the
inclusive range `[lower, upper]`, whatever the entropy stream. -/
theorem generate_numbers_spec (g : Nat → Nat) (count lower upper : Int)
    (hc : 0 ≤ count) (hlu : lower ≤ upper) :
    ∃ l, generate_numbers g count lower upper = .ok l
      ∧ (l.length : Int) = count
      ∧ ∀ x ∈ l, lower ≤ x ∧ x ≤ upper := by
  obtain ⟨l, hl, hlen, hb⟩ := genList_ok g lower upper hlu (List.range count.toNat)
  refine ⟨l, hl, ?_, hb⟩
  rw [hlen, List.length_range, Int.toNat_of_nonneg hc]

/-- Witness for `generate_numbers_spec` at `count = 3`, `lower = 1`,
`upper = 100` and the constant-zero entropy stream. -/
theorem generate_numbers_spec_witness :
    ∃ l, generate_numbers (fun _ => 0) 3 1 100 = .ok l
      ∧ (l.length : Int) = 3
      ∧ ∀ x ∈ l, 1 ≤ x ∧ x ≤ 100 :=
  generate_numbers_spec (fun _ => 0) 3 1 100 (by decide) (by decide)

/-- C3 counterexample: at `count = 1`, `lower = 2`, `upper = 1` the code
does not return a sequence at all — `random.randint(2, 1)` raises
`ValueError` because the range is empty — refuting the claim's
quantification over all `lower`, `upper`. -/
theorem generate_numbers_inverted_range_cex :
    ¬ ∃ l, generate_numbers (fun _ => 0) 1 2 1 = .ok l := by
  rintro ⟨l, hl⟩
  rw [show generate_numbers (fun _ => 0) 1 2 1 = .error .emptyRange from rfl] at hl
  exact Except.noConfusion hl

/-- C4: `calculate_average` and `find_max` on the empty sequence both fail
with the empty-input error (`ValueError("List of numbers cannot be
empty")`), and on every non-empty sequence both succeed, so the empty
input is their only failure mode. -/
theorem average_and_max_empty_input :
    calculate_average [] = .error .emptyList
      ∧ find_max [] = .error .emptyList
      ∧ ∀ numbers : List Int, numbers ≠ [] →
          (∃ q, calculate_average numbers = .ok q)
          ∧ ∃ m, find_max numbers = .ok m := by
  refine ⟨rfl, rfl, ?_⟩
  intro numbers h
  cases numbers with
  | nil => exact absurd rfl h
  | cons x xs => exact ⟨⟨_, rfl⟩, ⟨_, rfl⟩⟩

/-- Witness for `average_and_max_empty_input` at `[2, 4, 6]`. -/
theorem average_and_max_empty_input_witness :
    (∃ q, calculate_average [2, 4, 6] = .ok q)
      ∧ ∃ m, find_max [2, 4, 6] = .ok m :=
  average_and_max_empty_input.2.2 [2, 4, 6] (by decide)

/-- C5: on every non-empty integer sequence `calculate_average` returns the
sum divided by the length (exact division, the value Python's float
division denotes here), and `calculate_average([2, 4, 6]) = 4.0`. -/
theorem calculate_average_spec :
    (∀ numbers : List Int, numbers ≠ [] →
        calculate_average numbers
          = .ok ((numbers.sum : ℚ) / (numbers.length : ℚ)))
      ∧ calculate_average [2, 4, 6] = .ok 4 := by
  constructor
  · intro numbers h
    cases numbers with
    | nil => exact absurd rfl h
    | cons x xs => rfl
  · norm_num [calculate_average]

/-- Witness for `calculate_average_spec` at `[2, 4, 6]`. -/
theorem calculate_average_spec_witness :
    calculate_average [2, 4, 6] = .ok (((2 + 4 + 6 : Int) : ℚ) / ((3 : Nat) : ℚ)) := by
  have h := calculate_average_spec.1 [2, 4, 6] (by decide)
  simpa using h

/-- C6: on every non-empty integer sequence `find_max` returns an element
of the sequence that is greater than or equal to every element, and
`find_max([2, 4, 6]) = 6`. -/
theorem find_max_spec :
    (∀ numbers : List Int, numbers ≠ [] →
        ∃ m, find_max numbers = .ok m ∧ m ∈ numbers ∧ ∀ x ∈ numbers, x ≤ m)
      ∧ find_max [2, 4, 6] = .ok 6 := by
  constructor
  · intro numbers h
    cases numbers with
    | nil => exact absurd rfl h
    | cons x xs =>
      refine ⟨xs.foldl max x, rfl, ?_, ?_⟩
      · rcases foldl_max_mem xs x with h1 | h1
        · rw [h1]
          exact List.mem_cons_self x xs
        · exact List.mem_cons_of_mem x h1
      · intro y hy
        rcases List.mem_cons.mp hy with hy | hy
        · subst hy
          exact foldl_max_init_le xs y
        · exact foldl_max_le_of_mem xs x y hy
  · decide

/-- Witness for `find_max_spec` at `[2, 4, 6]`. -/
theorem find_max_spec_witness :
    ∃ m, find_max [2, 4, 6] = .ok m ∧ m ∈ [2, 4, 6] ∧ ∀ x ∈ [2, 4, 6], x ≤ m :=
  find_max_spec.1 [2, 4, 6] (by decide)

/-- C9: for every `count < 0`, `generate_numbers` returns the empty
sequence rather than failing, because Python's `range(count)` is empty for
a negative `count`. -/
theorem generate_numbers_neg_count (g : Nat → Nat) (count lower upper : Int)
    (h : count < 0) :
    generate_numbers g count lower upper = .ok [] := by
  unfold generate_numbers
  rw [Int.toNat_of_nonpos (le_of_lt h)]
  rfl

/-- Witness for `generate_numbers_neg_count` at `count = -1`. -/
theorem generate_numbers_neg_count_witness :
    generate_numbers (fun _ => 0) (-1) 1 100 = .ok [] :=
  generate_numbers_neg_count (fun _ => 0) (-1) 1 100 (by decide)

/-- C1: when the fetch/parse succeeds but yields a zero-row table,
`load_data` does not surface the empty-data error on its own: the
`raise ValueError("Loaded data is empty")` sits inside the `try` block, so
the function's own `except Exception` clause catches it and re-raises the
load-failure wrapper.  The caller sees the load-failure-kind error
(message "Failed to load data from u: Loaded data is empty"), which is a
different error value than the empty-data one. -/
theorem load_data_empty_data_wrapped :
    load_data "u" (.ok emptyFrame)
        = .error (.loadFailed "u" "Loaded data is empty")
      ∧ Err.loadFailed "u" "Loaded data is empty" ≠ Err.loadedEmpty
      ∧ (Err.loadFailed "u" "Loaded data is empty").render
          = "Failed to load data from u: Loaded data is empty" := by
  refine ⟨rfl, by simp, rfl⟩

/-- C2 (amended with the hypothesis `0 ≤ limit`, which the counterexample
`filter_by_category_neg_limit_cex` forces): for every table containing the
named column, every value and every non-negative limit,
`filter_by_category` succeeds and returns at most `limit` rows, every
returned row's cell in that column equals the given value exactly, the
returned rows are a sublist of the original rows (original order), and
when no row matches the result is empty rather than an error. -/
theorem filter_by_category_spec (df : DataFrame) (column value : String)
    (limit : Int) (hcol : column ∈ df.columns) (hlim : 0 ≤ limit) :
    ∃ out, filter_by_category df column value limit = .ok out
      ∧ (out.rows.length : Int) ≤ limit
      ∧ (∀ r ∈ out.rows, cellAt r (df.colIdx column) = Value.str value)
      ∧ out.rows.Sublist df.rows
      ∧ ((∀ r ∈ df.rows, cellAt r (df.colIdx column) ≠ Value.str value) →
          out.rows = []) := by
  have hmain : filter_by_category df column value limit
      = .ok ⟨df.columns,
          pandasHead limit (df.rows.filter
            (fun r => decide (cellAt r (df.colIdx column) = Value.str value)))⟩ := by
    rw [filter_by_category, if_pos hcol]
  refine ⟨_, hmain, ?_, ?_, ?_, ?_⟩
  · have hlen : (pandasHead limit (df.rows.filter
        (fun r => decide (cellAt r (df.colIdx column) = Value.str value)))).length
        ≤ limit.toNat := by
      rw [pandasHead, if_pos hlim]
      simp [List.length_take]
    show ((pandasHead limit (df.rows.filter
        (fun r => decide (cellAt r (df.colIdx column) = Value.str value)))).length : Int)
      ≤ limit
    omega
  · intro r hr
    have hrf := (pandasHead_sublist limit _).subset hr
    exact of_decide_eq_true (List.mem_filter.mp hrf).2
  · exact (pandasHead_sublist limit _).trans (List.filter_sublist df.rows)
  · intro hall
    have hfe : df.rows.filter
        (fun r => decide (cellAt r (df.colIdx column) = Value.str value)) = [] :=
      List.filter_eq_nil_iff.mpr (fun r hr => by simpa using hall r hr)
    simp only [hfe]
    exact pandasHead_nil limit

/-- Witness for `filter_by_category_spec` on a two-row frame, filtering
`species == "setosa"` with limit 10. -/
theorem filter_by_category_spec_witness :
    ∃ out, filter_by_category irisTwo "species" "setosa" 10 = .ok out
      ∧ (out.rows.length : Int) ≤ 10
      ∧ (∀ r ∈ out.rows, cellAt r (irisTwo.colIdx "species") = Value.str "setosa")
      ∧ out.rows.Sublist irisTwo.rows
      ∧ ((∀ r ∈ irisTwo.rows,
            cellAt r (irisTwo.colIdx "species") ≠ Value.str "setosa") →
          out.rows = []) :=
  filter_by_category_spec irisTwo "species" "setosa" 10 (by decide) (by decide)

/-- C2 counterexample: with the negative limit `-1` on a one-row matching
frame, `df.head(-1)` drops the last row and the call returns 0 rows, while
the claim as stated demands at most `-1` rows — impossible — so the claim's
quantification over every limit fails on the code. -/
theorem filter_by_category_neg_limit_cex :
    ¬ ∀ out, filter_by_category setosaOne "species" "setosa" (-1) = .ok out →
        (out.rows.length : Int) ≤ -1 := by
  intro h
  have hh := h ⟨["species"], []⟩ (by decide)
  simp at hh

/-- C7: on every table lacking the named column, `calculate_column_mean`
and `find_column_max` both fail with the column-not-found error,
whatever the table contents. -/
theorem column_not_found_spec (df : DataFrame) (column : String)
    (h : column ∉ df.columns) :
    calculate_column_mean df column = .error (.columnNotFound column)
      ∧ find_column_max df column = .error (.columnNotFound column) := by
  constructor
  · rw [calculate_column_mean, if_neg h]
  · rw [find_column_max, if_neg h]

/-- Witness for `column_not_found_spec`: `emptyFrame` lacks the column
`species`. -/
theorem column_not_found_spec_witness :
    calculate_column_mean emptyFrame "species"
        = .error (.columnNotFound "species")
      ∧ find_column_max emptyFrame "species"
        = .error (.columnNotFound "species") :=
  column_not_found_spec emptyFrame "species" (by decide)

/-- C8 (amended with the hypothesis `0 ≤ limit`, which the counterexample
`filter_by_category_idem_cex` forces): for every table containing the
named column and every non-negative limit, applying `filter_by_category`
to its own result with the same column, value and limit returns that
result unchanged. -/
theorem filter_by_category_idem (df : DataFrame) (column value : String)
    (limit : Int) (hcol : column ∈ df.columns) (hlim : 0 ≤ limit)
    (out : DataFrame)
    (hout : filter_by_category df column value limit = .ok out) :
    filter_by_category out column value limit = .ok out := by
  rw [filter_by_category, if_pos hcol] at hout
  have hform := Except.ok.inj hout
  subst hform
  have hcol2 : column ∈ (⟨df.columns,
      pandasHead limit (df.rows.filter
        (fun r => decide (cellAt r (df.colIdx column) = Value.str value)))⟩ :
      DataFrame).columns := hcol
  rw [filter_by_category, if_pos hcol2]
  refine congrArg Except.ok ?_
  refine congrArg (DataFrame.mk df.columns) ?_
  have hall : ∀ r ∈ pandasHead limit (df.rows.filter
      (fun r => decide (cellAt r (df.colIdx column) = Value.str value))),
      (fun r => decide (cellAt r (df.colIdx column) = Value.str value)) r = true :=
    fun r hr => List.mem_filter.mp ((pandasHead_sublist limit _).subset hr) |>.2
  show pandasHead limit
      (List.filter (fun r => decide (cellAt r (df.colIdx column) = Value.str value))
        (pandasHead limit (List.filter
          (fun r => decide (cellAt r (df.colIdx column) = Value.str value)) df.rows)))
    = pandasHead limit (List.filter
        (fun r => decide (cellAt r (df.colIdx column) = Value.str value)) df.rows)
  rw [List.filter_eq_self.mpr hall]
  rw [pandasHead, if_pos hlim, pandasHead, if_pos hlim, List.take_take,
    Nat.min_self]

/-- Witness for `filter_by_category_idem`: filtering the two-row frame
`irisTwo` gives `setosaOne`, and filtering `setosaOne` again returns it
unchanged. -/
theorem filter_by_category_idem_witness :
    filter_by_category setosaOne "species" "setosa" 10 = .ok setosaOne :=
  filter_by_category_idem irisTwo "species" "setosa" 10 (by decide) (by decide)
    setosaOne (by decide)

/-- C8 counterexample: with the negative limit `-1` on a frame with two
matching rows, the first application keeps one row (`head(-1)` drops the
last of two matches) but the second application drops that row too, so the
second application does not return the first result unchanged. -/
theorem filter_by_category_idem_cex :
    ¬ ∀ out, filter_by_category setosaTwo "species" "setosa" (-1) = .ok out →
        filter_by_category out "species" "setosa" (-1) = .ok out := by
  intro h
  have hh := h setosaOne (by decide)
  rw [show filter_by_category setosaOne "species" "setosa" (-1)
      = .ok ⟨["species"], []⟩ by decide] at hh
  have := Except.ok.inj hh
  have hrows := congrArg DataFrame.rows this
  simp [setosaOne] at hrows

/-- C10: on every table with at least one row that contains the named
column, the empty-column branch of `calculate_column_mean` and
`find_column_max` is unreachable: `df[column].empty` tests the series
length, which equals the table's row count, so it is false whenever the
table has a row, and neither function can return the
`Column ... contains no data` error there. -/
theorem empty_column_branch_unreachable (df : DataFrame) (column : String)
    (hcol : column ∈ df.columns) (hrows : df.rows ≠ []) :
    (df.col column).isEmpty = false
      ∧ calculate_column_mean df column ≠ .error (.columnNoData column)
      ∧ find_column_max df column ≠ .error (.columnNoData column) := by
  have hne : (df.col column).isEmpty = false := by
    rw [List.isEmpty_eq_false, DataFrame.col]
    simpa using hrows
  refine ⟨hne, ?_, ?_⟩
  · rw [calculate_column_mean, if_pos hcol, hne]
    exact seriesMean_no_columnNoData _ column
  · rw [find_column_max, if_pos hcol, hne]
    exact seriesMax_no_columnNoData _ column

/-- Witness for `empty_column_branch_unreachable` on the one-row frame
`setosaOne` and its column `species`. -/
theorem empty_column_branch_unreachable_witness :
    (setosaOne.col "species").isEmpty = false
      ∧ calculate_column_mean setosaOne "species"
          ≠ .error (.columnNoData "species")
      ∧ find_column_max setosaOne "species"
          ≠ .error (.columnNoData "species") :=
  empty_column_branch_unreachable setosaOne "species" (by decide) (by decide)

end SDLC
